import Mathlib

/-!
# A shallow embedding of the airbrb backend service layer

This file embeds `src/service.js` of the airbrb backend: the three
in-memory collections (`users`, `listings`, `bookings`), the exported
business operations that mutate them, the random identifier allocator
`generateId`, and the dual-backend persistence coordinator
(`update` / `save` / `reset`).

Modelling conventions:
* A JS object used as a string-keyed map becomes an association list
  (`Table`) whose keys are unique in every state the program can build.
* `Math.random()` is external nondeterminism: the allocator consumes a
  stream (`List Nat`) of pre-drawn outputs of `randNum`.
* A callback that calls `reject(new InputError(msg))` yields
  `Outcome.err msg`; an uncaught JS `TypeError` (property access on
  `undefined`) yields `Outcome.thrown`; both leave the state unchanged
  when they fire before any assignment, exactly as in the source.
* `new Date().toISOString()` is a parameter `now : String`.
-/

namespace AirBrB

/-- A JS value appearing in the id-allocator comparison: either a string
(an object key from `Object.keys`) or a number (the random draw). -/
inductive JsVal where
  | str : String → JsVal
  | num : Nat → JsVal
deriving DecidableEq

/-- JS strict equality (SameValueZero, as used by `Array.prototype.includes`):
values of different types are never equal, in particular a string key is
never equal to a number. -/
def jsStrictEq : JsVal → JsVal → Bool
  | .str a, .str b => a == b
  | .num a, .num b => a == b
  | _, _ => false

/-- `array.includes(v)` on an array of JS values. -/
def jsIncludes (l : List JsVal) (v : JsVal) : Bool :=
  l.any (fun x => jsStrictEq x v)

/-- One evaluation of
`Math.round(Math.random() * (max - Math.floor(max / 10)) + Math.floor(max / 10))`:
`Math.random()` is an oracle, so the whole expression is modelled as
consuming one pre-drawn value from the stream (`0` once exhausted). -/
def randNum (rng : List Nat) : Nat × List Nat :=
  match rng with
  | [] => (0, [])
  | r :: rest => (r, rest)

/-- The retry loop of `generateId`: `while (currentList.includes(R)) R = randNum(max);`.
The loop is given fuel; since the guard compares the string keys in
`currentList` with the numeric draw `R`, it can in fact never fire. -/
def generateIdLoop (currentList : List JsVal) : Nat → Nat → List Nat → Nat × List Nat
  | 0, riv, rng => (riv, rng)
  | fuel + 1, riv, rng =>
    if jsIncludes currentList (.num riv) then
      let (r2, rng2) := randNum rng
      generateIdLoop currentList fuel r2 rng2
    else (riv, rng)

/-- `generateId(currentList, max)`: draw `R = randNum(max)`, redraw while
`currentList.includes(R)`, return `R.toString()`.  `currentList` is an array
of string keys while `R` is a number. -/
def generateId (currentList : List String) (rng : List Nat) : String × List Nat :=
  let (r, rng2) := randNum rng
  let (rf, rng3) := generateIdLoop (currentList.map .str) (rng2.length + 1) r rng2
  (toString rf, rng3)

/-- A JS object used as a map from string keys to records. -/
abbrev Table (α : Type) := List (String × α)

namespace Table

/-- `Object.keys(t)`. -/
def keys (t : Table α) : List String := t.map (·.1)

/-- `t[k]`: `some` value or `none` (JS `undefined`). -/
def get (t : Table α) (k : String) : Option α :=
  match t with
  | [] => none
  | (k2, v) :: rest => if k2 = k then some v else get rest k

/-- `t[k] = v`: an existing key keeps its position and gets the new
value, an absent key is appended at the end. -/
def set (t : Table α) (k : String) (v : α) : Table α :=
  match t with
  | [] => [(k, v)]
  | (k2, v2) :: rest => if k2 = k then (k, v) :: rest else (k2, v2) :: set rest k v

/-- `delete t[k]`: a no-op when the key is absent. -/
def del (t : Table α) (k : String) : Table α :=
  t.filter (fun p => p.1 ≠ k)

end Table

/-- A record of the `users` collection (see `register`). -/
structure User where
  name : String
  password : String
  sessionActive : Bool
deriving DecidableEq

/-- A record of the `listings` collection (see `newListingPayload`).
`address` and `metadata` are opaque blobs; `postedOn` is `none` for JS
`null`. -/
structure Listing where
  title : String
  owner : String
  address : String
  price : Int
  thumbnail : String
  metadata : String
  reviews : List String
  availability : List String
  published : Bool
  postedOn : Option String
deriving DecidableEq

/-- A record of the `bookings` collection (see `newBookingPayload`).
`status` ranges over the strings `pending`, `accepted`, `declined`. -/
structure Booking where
  owner : String
  dateRange : String
  totalPrice : Int
  listingId : String
  status : String
deriving DecidableEq

/-- The three in-memory collections. -/
structure DB where
  users : Table User
  listings : Table Listing
  bookings : Table Booking
deriving DecidableEq

/-- The initial state: `let users = {}; let listings = {}; let bookings = {};`. -/
def emptyDB : DB := { users := [], listings := [], bookings := [] }

/-- How a `resourceLock` callback settles: `resolve(a)`, or
`reject(new InputError(msg))`, or an uncaught JS `TypeError`. -/
inductive Outcome (α : Type) where
  | ok : α → Outcome α
  | err : String → Outcome α
  | thrown : Outcome α
deriving DecidableEq

/-- JS truthiness of a possibly-undefined string: `undefined` and the
empty string are falsy. -/
def truthyStr : Option String → Bool
  | none => false
  | some s => s != ""

/-- JS truthiness of a possibly-undefined number: `undefined` and `0` are
falsy. -/
def truthyInt : Option Int → Bool
  | none => false
  | some n => n != 0

/-! ## Auth operations -/

/-- `register(email, password, name)`: field checks in source order, then
duplicate-email check, then insert with `sessionActive: true`.  The JWT
token is deterministic in the email, so the resolved token is modelled by
the email itself. -/
def register (db : DB) (email? password? name? : Option String) : DB × Outcome String :=
  if truthyStr email? = false then
    (db, .err "Must provide an email for user registration")
  else if truthyStr password? = false then
    (db, .err "Must provide a password for user registration")
  else if truthyStr name? = false then
    (db, .err "Must provide a name for user registration")
  else if (db.users.get (email?.getD "")).isSome then
    (db, .err "Email address already registered")
  else
    let u : User := { name := name?.getD "", password := password?.getD "", sessionActive := true }
    ({ db with users := db.users.set (email?.getD "") u }, .ok (email?.getD ""))

/-- `login(email, password)`: on a password match the callback calls
`resolve` and then falls through to `reject`; the first settlement wins,
so a match resolves (with `sessionActive` set), anything else rejects. -/
def login (db : DB) (email? password? : Option String) : DB × Outcome String :=
  if truthyStr email? = false then
    (db, .err "Must provide an email for user login")
  else if truthyStr password? = false then
    (db, .err "Must provide a password for user login")
  else
    match db.users.get (email?.getD "") with
    | some u =>
      if u.password = password?.getD "" then
        ({ db with users := db.users.set (email?.getD "") { u with sessionActive := true } },
         .ok (email?.getD ""))
      else (db, .err "Invalid email or password")
    | none => (db, .err "Invalid email or password")

/-- `logout(email)`: sets `sessionActive` to false; a JS `TypeError`
escapes when the email is not a user. -/
def logout (db : DB) (email : String) : DB × Outcome Unit :=
  match db.users.get email with
  | none => (db, .thrown)
  | some u =>
    ({ db with users := db.users.set email { u with sessionActive := false } }, .ok ())

/-! ## Listing operations -/

/-- `newListingPayload(title, owner, address, price, thumbnail, metadata)`. -/
def newListingPayload (title owner address : String) (price : Int)
    (thumbnail metadata : String) : Listing :=
  { title, owner, address, price, thumbnail, metadata,
    reviews := [], availability := [], published := false, postedOn := none }

/-- `Object.keys(listings).find((key) => listings[key].title === title) !== undefined`
on a JS object (keys unique), i.e. some live listing carries `title`. -/
def hasTitle (t : Table Listing) (title : String) : Bool :=
  t.any (fun p => p.2.title == title)

/-- `addListing(title, email, address, price, thumbnail, metadata)`: the
checks in source order (title present, title not a duplicate, address,
price, thumbnail, metadata present), then allocate an id from the current
listing keys and insert the fresh payload.  `isNaN(price)` is folded into
the `undefined` case, `Int` having no NaN. -/
def addListing (db : DB) (rng : List Nat) (title? : Option String) (email : String)
    (address? : Option String) (price? : Option Int) (thumbnail? : Option String)
    (metadata? : Option String) : DB × List Nat × Outcome String :=
  match title? with
  | none => (db, rng, .err "Must provide a title for new listing")
  | some title =>
    if hasTitle db.listings title then
      (db, rng, .err "A listing with this title already exists")
    else match address? with
    | none => (db, rng, .err "Must provide an address for new listing")
    | some address =>
      match price? with
      | none => (db, rng, .err "Must provide a valid price for new listing")
      | some price =>
        match thumbnail? with
        | none => (db, rng, .err "Must provide a thumbnail for new listing")
        | some thumbnail =>
          match metadata? with
          | none => (db, rng, .err "Must provide property details for this listing")
          | some metadata =>
            let (id, rng2) := generateId (Table.keys db.listings) rng
            ({ db with listings :=
                db.listings.set id (newListingPayload title email address price thumbnail metadata) },
             rng2, .ok id)

/-- `updateListing(listingId, title, address, thumbnail, price, metadata)`:
each truthy field is assigned in source order (address, title, thumbnail,
price, metadata) with no checks; on an absent listing id the first truthy
assignment raises a JS `TypeError` before any mutation. -/
def updateListing (db : DB) (listingId : String) (title? address? thumbnail? : Option String)
    (price? : Option Int) (metadata? : Option String) : DB × Outcome Unit :=
  match db.listings.get listingId with
  | none =>
    if truthyStr address? || truthyStr title? || truthyStr thumbnail?
        || truthyInt price? || truthyStr metadata? then
      (db, .thrown)
    else (db, .ok ())
  | some l0 =>
    let l1 := match address? with
      | some a => if a = "" then l0 else { l0 with address := a }
      | none => l0
    let l2 := match title? with
      | some t => if t = "" then l1 else { l1 with title := t }
      | none => l1
    let l3 := match thumbnail? with
      | some t => if t = "" then l2 else { l2 with thumbnail := t }
      | none => l2
    let l4 := match price? with
      | some p => if p = 0 then l3 else { l3 with price := p }
      | none => l3
    let l5 := match metadata? with
      | some m => if m = "" then l4 else { l4 with metadata := m }
      | none => l4
    ({ db with listings := db.listings.set listingId l5 }, .ok ())

/-- `removeListing(listingId)`: unconditional `delete` and resolve. -/
def removeListing (db : DB) (listingId : String) : DB × Outcome Unit :=
  ({ db with listings := db.listings.del listingId }, .ok ())

/-- `publishListing(listingId, availability)`: availability must be
defined, the listing must not already be published (a `TypeError` escapes
on an absent listing id), then availability, the published flag and the
`postedOn` timestamp are all set together. -/
def publishListing (db : DB) (listingId : String) (availability? : Option (List String))
    (now : String) : DB × Outcome Unit :=
  match availability? with
  | none => (db, .err "Must provide listing availability")
  | some availability =>
    match db.listings.get listingId with
    | none => (db, .thrown)
    | some l =>
      if l.published then (db, .err "This listing is already published")
      else
        let l2 := { l with availability := availability, published := true, postedOn := some now }
        ({ db with listings := db.listings.set listingId l2 }, .ok ())

/-- `unpublishListing(listingId)`: the listing must be published (a
`TypeError` escapes on an absent listing id), then availability, the
published flag and `postedOn` are all cleared together. -/
def unpublishListing (db : DB) (listingId : String) : DB × Outcome Unit :=
  match db.listings.get listingId with
  | none => (db, .thrown)
  | some l =>
    if l.published = false then (db, .err "This listing is already unpublished")
    else
      let l2 := { l with availability := ([] : List String), published := false, postedOn := (none : Option String) }
      ({ db with listings := db.listings.set listingId l2 }, .ok ())

/-- `leaveListingReview(email, listingId, bookingId, review)`: checks in
source order, then append the review to the listing. -/
def leaveListingReview (db : DB) (email listingId bookingId : String)
    (review? : Option String) : DB × Outcome Unit :=
  match db.bookings.get bookingId with
  | none => (db, .err "Invalid booking ID")
  | some bk =>
    match db.listings.get listingId with
    | none => (db, .err "Invalid listing ID")
    | some l =>
      if bk.owner != email then (db, .err "User has not stayed at this listing")
      else if bk.listingId != listingId then
        (db, .err "This booking is not associated with this listing ID")
      else match review? with
      | none => (db, .err "Must provide review contents")
      | some review =>
        let l2 := { l with reviews := l.reviews ++ [review] }
        ({ db with listings := db.listings.set listingId l2 }, .ok ())

/-! ## Booking operations -/

/-- `newBookingPayload(owner, dateRange, totalPrice, listingId)`. -/
def newBookingPayload (owner dateRange : String) (totalPrice : Int)
    (listingId : String) : Booking :=
  { owner, dateRange, totalPrice, listingId, status := "pending" }

/-- `makeNewBooking(owner, dateRange, totalPrice, listingId)`: checks in
source order (listing exists, date range, total price defined and
non-negative, not the booker who owns the listing, listing published), then
allocate a booking id and insert a pending booking. -/
def makeNewBooking (db : DB) (rng : List Nat) (owner : String) (dateRange? : Option String)
    (totalPrice? : Option Int) (listingId : String) : DB × List Nat × Outcome String :=
  match db.listings.get listingId with
  | none => (db, rng, .err "Invalid listing ID")
  | some l =>
    match dateRange? with
    | none => (db, rng, .err "Must provide a valid date range for the booking")
    | some dateRange =>
      match totalPrice? with
      | none => (db, rng, .err "Must provide a valid total price for this booking")
      | some totalPrice =>
        if totalPrice < 0 then
          (db, rng, .err "Must provide a valid total price for this booking")
        else if l.owner = owner then
          (db, rng, .err "Cannot make bookings for your own listings")
        else if l.published = false then
          (db, rng, .err "Cannot make a booking for an unpublished listing")
        else
          let (id, rng2) := generateId (Table.keys db.bookings) rng
          ({ db with bookings :=
              db.bookings.set id (newBookingPayload owner dateRange totalPrice listingId) },
           rng2, .ok id)

/-- `removeBooking(bookingId)`: unconditional `delete` and resolve. -/
def removeBooking (db : DB) (bookingId : String) : DB × Outcome Unit :=
  ({ db with bookings := db.bookings.del bookingId }, .ok ())

/-- `Object.keys(listings).find((key) => key === bookings[bookingId].listingId
&& listings[key].owner === owner) !== undefined`: the booked listing exists
and is owned by `owner`. -/
def ownsBookingListing (db : DB) (owner : String) (bk : Booking) : Bool :=
  db.listings.any (fun p => p.1 == bk.listingId && p.2.owner == owner)

/-- `acceptBooking(owner, bookingId)`: checks in source order (booking
exists, the booked listing is owned by the caller, status not already
`accepted`, status not already `declined`), then set status `accepted`. -/
def acceptBooking (db : DB) (owner bookingId : String) : DB × Outcome Unit :=
  match db.bookings.get bookingId with
  | none => (db, .err "Invalid booking ID")
  | some bk =>
    if ownsBookingListing db owner bk = false then
      (db, .err "Cannot accept bookings for a listing that isn\x27t yours")
    else if bk.status = "accepted" then (db, .err "Booking has already been accepted")
    else if bk.status = "declined" then (db, .err "Booking has already been declined")
    else
      ({ db with bookings := db.bookings.set bookingId { bk with status := "accepted" } },
       .ok ())

/-- `declineBooking(owner, bookingId)`: as `acceptBooking` with the two
terminal checks swapped (declined first), then set status `declined`. -/
def declineBooking (db : DB) (owner bookingId : String) : DB × Outcome Unit :=
  match db.bookings.get bookingId with
  | none => (db, .err "Invalid booking ID")
  | some bk =>
    if ownsBookingListing db owner bk = false then
      (db, .err "Cannot accept bookings for a listing that isn\x27t yours")
    else if bk.status = "declined" then (db, .err "Booking has already been declined")
    else if bk.status = "accepted" then (db, .err "Booking has already been accepted")
    else
      ({ db with bookings := db.bookings.set bookingId { bk with status := "declined" } },
       .ok ())

/-! ## Enumeration views -/

/-- The projection returned by `getAllListings`: exactly the fields
`{id, title, owner, address, thumbnail, price, reviews}`. -/
structure ListingView where
  id : Option Nat
  title : String
  owner : String
  address : String
  thumbnail : String
  price : Int
  reviews : List String
deriving DecidableEq

/-- The projection returned by `getAllBookings`: exactly the fields
`{id, owner, dateRange, totalPrice, listingId, status}`. -/
structure BookingView where
  id : Option Nat
  owner : String
  dateRange : String
  totalPrice : Int
  listingId : String
  status : String
deriving DecidableEq

/-- `parseInt(s, 10)`: the longest leading run of decimal digits, `none`
for NaN when there is no leading digit (generated keys are plain decimal
numerals, so sign and whitespace handling is irrelevant). -/
def jsParseIntDec (s : String) : Option Nat :=
  let digits := s.toList.takeWhile Char.isDigit
  if digits = [] then none
  else some (digits.foldl (fun acc c => acc * 10 + (c.toNat - 48)) 0)

/-- `getAllListings()`: map every live listing (a JS object has unique
keys) to its projected view, the key parsed as an integer id. -/
def getAllListings (db : DB) : List ListingView :=
  db.listings.map (fun p =>
    { id := jsParseIntDec p.1, title := p.2.title, owner := p.2.owner,
      address := p.2.address, thumbnail := p.2.thumbnail, price := p.2.price,
      reviews := p.2.reviews })

/-- `getAllBookings()`: map every live booking to its projected view. -/
def getAllBookings (db : DB) : List BookingView :=
  db.bookings.map (fun p =>
    { id := jsParseIntDec p.1, owner := p.2.owner, dateRange := p.2.dateRange,
      totalPrice := p.2.totalPrice, listingId := p.2.listingId, status := p.2.status })

/-! ## Persistence coordinator -/

/-- The two storage backends: whether the remote credentials are
configured, and the snapshot each backend currently holds (`none` when
nothing was ever written). -/
structure Store where
  hasRedis : Bool
  redisData : Option DB
  fileData : Option DB
deriving DecidableEq

/-- `update(users, listings, bookings)`: with remote credentials, try
`redis.set`; on failure fall back to the local file write; without
credentials the first attempt is already the file write and the catch
block retries that same file write.  `redisOk` and `fileOk` are oracles
for whether the respective backend write succeeds at this call; the
returned `Bool` is `true` for `resolve` and `false` for
`reject(new Error(...))`. -/
def update (users : Table User) (listings : Table Listing) (bookings : Table Booking)
    (st : Store) (redisOk fileOk : Bool) : Store × Bool :=
  let snap : DB := { users, listings, bookings }
  if st.hasRedis then
    if redisOk then ({ st with redisData := some snap }, true)
    else if fileOk then ({ st with fileData := some snap }, true)
    else (st, false)
  else
    if fileOk then ({ st with fileData := some snap }, true)
    else (st, false)

/-- `save()`: `update(users, listings, bookings)` on the current
collections; the in-memory collections are not touched. -/
def save (db : DB) (st : Store) (redisOk fileOk : Bool) : Store × Bool :=
  update db.users db.listings db.bookings st redisOk fileOk

/-- `reset()`: `await update({}, {}, {})`, then clear the three
collections; if the save rejects, the exception propagates and the
collections are left as they were. -/
def reset (db : DB) (st : Store) (redisOk fileOk : Bool) : DB × Store × Bool :=
  let r := update [] [] [] st redisOk fileOk
  if r.2 then (emptyDB, r.1, true) else (db, r.1, false)

/-! ## The exported operations as a step system

`resourceLock` (the shared async-lock) runs each submitted callback as one
atomic critical section, so a run of the service is a sequence of
operations applied atomically to the state. -/

/-- One invocation of an exported state-changing operation, with its
arguments (the oracle draws for the persistence backends attached where
the operation saves). -/
inductive Op where
  | register (email? password? name? : Option String)
  | login (email? password? : Option String)
  | logout (email : String)
  | addListing (title? : Option String) (email : String) (address? : Option String)
      (price? : Option Int) (thumbnail? : Option String) (metadata? : Option String)
  | updateListing (listingId : String) (title? address? thumbnail? : Option String)
      (price? : Option Int) (metadata? : Option String)
  | removeListing (listingId : String)
  | publishListing (listingId : String) (availability? : Option (List String)) (now : String)
  | unpublishListing (listingId : String)
  | leaveListingReview (email listingId bookingId : String) (review? : Option String)
  | makeNewBooking (owner : String) (dateRange? : Option String)
      (totalPrice? : Option Int) (listingId : String)
  | removeBooking (bookingId : String)
  | acceptBooking (owner bookingId : String)
  | declineBooking (owner bookingId : String)
  | save (redisOk fileOk : Bool)
  | reset (redisOk fileOk : Bool)
deriving DecidableEq

/-- The full system state: the collections, the remaining oracle stream
of random draws, and the two persistence backends. -/
structure Sys where
  db : DB
  rng : List Nat
  store : Store
deriving DecidableEq

/-- Apply one operation to the system state (the critical section of the
operation, run atomically under `resourceLock`). -/
def Op.apply (op : Op) (s : Sys) : Sys :=
  match op with
  | .register e p n => { s with db := (AirBrB.register s.db e p n).1 }
  | .login e p => { s with db := (AirBrB.login s.db e p).1 }
  | .logout e => { s with db := (AirBrB.logout s.db e).1 }
  | .addListing t e a pr th m =>
      let r := AirBrB.addListing s.db s.rng t e a pr th m
      { s with db := r.1, rng := r.2.1 }
  | .updateListing lid t a th pr m =>
      { s with db := (AirBrB.updateListing s.db lid t a th pr m).1 }
  | .removeListing lid => { s with db := (AirBrB.removeListing s.db lid).1 }
  | .publishListing lid av now => { s with db := (AirBrB.publishListing s.db lid av now).1 }
  | .unpublishListing lid => { s with db := (AirBrB.unpublishListing s.db lid).1 }
  | .leaveListingReview e lid bid rv =>
      { s with db := (AirBrB.leaveListingReview s.db e lid bid rv).1 }
  | .makeNewBooking o dr tp lid =>
      let r := AirBrB.makeNewBooking s.db s.rng o dr tp lid
      { s with db := r.1, rng := r.2.1 }
  | .removeBooking bid => { s with db := (AirBrB.removeBooking s.db bid).1 }
  | .acceptBooking o bid => { s with db := (AirBrB.acceptBooking s.db o bid).1 }
  | .declineBooking o bid => { s with db := (AirBrB.declineBooking s.db o bid).1 }
  | .save rOk fOk => { s with store := (AirBrB.save s.db s.store rOk fOk).1 }
  | .reset rOk fOk =>
      let r := AirBrB.reset s.db s.store rOk fOk
      { s with db := r.1, store := r.2.1 }

/-- Modelled from the spec: the mutation serializer itself (the
`async-lock` package behind `resourceLock`) is an external dependency not
present in this repository, so its guarantee is taken from the spec —
queued operation callbacks run with at most one critical section in
flight at any instant, in FIFO submission order, so a batch of submitted
operations executes as the sequential composition of their atomic
critical sections. -/
def runOps (ops : List Op) (s : Sys) : Sys :=
  ops.foldl (fun s op => op.apply s) s

/-- A start state: empty collections (the fresh-start branch of
`loadData`), an arbitrary oracle stream and arbitrary backends. -/
def initSys (rng : List Nat) (st : Store) : Sys :=
  { db := emptyDB, rng := rng, store := st }

/-- The states reachable from a fresh start through the exported
operations. -/
def Reachable (s : Sys) : Prop :=
  ∃ ops rng st, s = runOps ops (initSys rng st)

/-! ## Stated properties -/

/-- Titles are pairwise distinct across the live listing set: two
distinct keys never map to the same title. -/
def dupTitleFree (db : DB) : Prop :=
  ∀ p ∈ db.listings, ∀ q ∈ db.listings, p.1 ≠ q.1 → p.2.title ≠ q.2.title

/-- The published flag, non-empty availability and non-null `postedOn`
hold together as a group, as the spec states it: published iff non-empty
availability iff non-null `postedOn`. -/
def pubGroupConsistent (db : DB) : Prop :=
  ∀ p ∈ db.listings,
    (p.2.published = true ↔ p.2.availability ≠ []) ∧
    (p.2.published = true ↔ p.2.postedOn ≠ none)

/-- The part of the publish group the code does maintain: published iff
non-null `postedOn`, and a non-empty availability only on a published
listing (the converse fails: publishing with a defined but empty
availability list is accepted). -/
def pubGroupWeak (l : Listing) : Prop :=
  (l.published = true ↔ l.postedOn ≠ none) ∧ (l.availability ≠ [] → l.published = true)

instance (db : DB) : Decidable (dupTitleFree db) :=
  inferInstanceAs (Decidable (∀ p ∈ db.listings, ∀ q ∈ db.listings, p.1 ≠ q.1 → p.2.title ≠ q.2.title))

instance (db : DB) : Decidable (pubGroupConsistent db) :=
  inferInstanceAs (Decidable (∀ p ∈ db.listings,
    (p.2.published = true ↔ p.2.availability ≠ []) ∧ (p.2.published = true ↔ p.2.postedOn ≠ none)))

instance (l : Listing) : Decidable (pubGroupWeak l) :=
  inferInstanceAs (Decidable ((l.published = true ↔ l.postedOn ≠ none) ∧ (l.availability ≠ [] → l.published = true)))

/-- Agreement on exactly the fields `getAllListings` projects. -/
def listingVisEq (l1 l2 : Listing) : Prop :=
  l1.title = l2.title ∧ l1.owner = l2.owner ∧ l1.address = l2.address ∧
  l1.thumbnail = l2.thumbnail ∧ l1.price = l2.price ∧ l1.reviews = l2.reviews

/-- A backend store with no remote credentials and nothing saved yet. -/
def st0 : Store := { hasRedis := false, redisData := none, fileData := none }

/-- A run that creates two listings and then renames the first to the
title of the second through `updateListing`. -/
def opsDupTitle : List Op :=
  [ .addListing (some "A") "a@x.com" (some "1 Rd") (some 100) (some "t.png") (some "md"),
    .addListing (some "B") "a@x.com" (some "2 Rd") (some 100) (some "t.png") (some "md"),
    .updateListing "1" (some "B") none none none none ]

/-- The state that run reaches, starting from a fresh service whose next
random draws are 1 and 2. -/
def sysDupTitle : Sys := runOps opsDupTitle (initSys [1, 2] st0)

/-- A run that creates a listing and then publishes it with a defined but
empty availability list. -/
def opsEmptyAvail : List Op :=
  [ .addListing (some "Loft") "a@x.com" (some "1 Rd") (some 100) (some "t.png") (some "md"),
    .publishListing "1" (some []) "2023-11-01T00:00:00.000Z" ]

/-- The state that run reaches, starting from a fresh service whose next
random draw is 1. -/
def sysEmptyAvail : Sys := runOps opsEmptyAvail (initSys [1] st0)

/-- The part of `pubGroupWeak` lifted to all live listings. -/
def pubGroupWeakAll (db : DB) : Prop :=
  ∀ p ∈ db.listings, pubGroupWeak p.2

/-- A backend store with remote credentials configured and nothing saved
yet. -/
def stR : Store := { hasRedis := true, redisData := none, fileData := none }

/-- A concrete unpublished listing. -/
def lW : Listing := newListingPayload "Loft" "a@x.com" "1 Rd" 100 "t.png" "md"

/-- A database holding just that listing under key `"1"`. -/
def dbW : DB := { users := [], listings := [("1", lW)], bookings := [] }

/-- A concrete published listing owned by `h@x.com`. -/
def lPub : Listing :=
  { title := "Loft", owner := "h@x.com", address := "1 Rd", price := 100,
    thumbnail := "t.png", metadata := "md", reviews := [], availability := ["d1"],
    published := true, postedOn := some "2023-11-01T00:00:00.000Z" }

/-- A concrete booking on that listing that has already been accepted. -/
def bkAcc : Booking :=
  { owner := "g@x.com", dateRange := "d1", totalPrice := 50, listingId := "1",
    status := "accepted" }

/-- A database with the published listing and the accepted booking. -/
def dbB : DB := { users := [], listings := [("1", lPub)], bookings := [("9", bkAcc)] }

/-- Two databases that agree on every field the enumeration views project
and differ in listing metadata, availability, published, `postedOn`, and a
user password. -/
def dbV1 : DB :=
  { users := [("a@x.com", { name := "Ann", password := "pw1", sessionActive := true })],
    listings := [("1", lW)], bookings := [] }

/-- The hidden-field variant of `lW` appearing in `dbV2`. -/
def lWHid : Listing :=
  { lW with
    metadata := "other"
    availability := ["d1"]
    published := true
    postedOn := some "2023-11-01T00:00:00.000Z" }

/-- The second of the pair: hidden fields changed, visible fields kept. -/
def dbV2 : DB :=
  { users := [("a@x.com", { name := "Ann", password := "pw2", sessionActive := false })],
    listings := [("1", lWHid)], bookings := [] }

/-- A listing that does not carry the contested title `X`. -/
def lY : Listing := newListingPayload "Y" "c@x.com" "3 Rd" 30 "v.png" "md"

/-- A database already holding that listing under key `"5"`. -/
def db8 : DB := { users := [], listings := [("5", lY)], bookings := [] }

/-- The first of two concurrent creations of a listing titled `X`
against that database, when the next random draw is 5. -/
def add8A : DB × List Nat × Outcome String :=
  addListing db8 [5] (some "X") "a@x.com" (some "1 Rd") (some 100) (some "t.png") (some "md")

/-- The second of the two concurrent creations, run right after the
first under the serializer. -/
def add8B : DB × List Nat × Outcome String :=
  addListing add8A.1 add8A.2.1 (some "X") "b@y.com" (some "2 Rd") (some 200) (some "u.png") (some "md")

/-- A first listing creation on a fresh service whose next random draws
are 5 and 5. -/
def addA : DB × List Nat × Outcome String :=
  addListing emptyDB [5, 5] (some "A") "a@x.com" (some "1 Rd") (some 100) (some "t.png") (some "md")

/-- A second listing creation right after it, drawing the same number. -/
def addB : DB × List Nat × Outcome String :=
  addListing addA.1 addA.2.1 (some "B") "b@y.com" (some "2 Rd") (some 200) (some "u.png") (some "md")

/-! ## Table lemmas -/

namespace Table

theorem get_set_self (t : Table α) (k : String) (v : α) : (t.set k v).get k = some v := by
  induction t with
  | nil => simp [Table.set, Table.get]
  | cons p rest ih =>
    obtain ⟨k2, v2⟩ := p
    by_cases h : k2 = k
    · simp [Table.set, Table.get, h]
    · simp [Table.set, Table.get, h, ih]

theorem get_set_ne (t : Table α) (k k2 : String) (v : α) (h : k2 ≠ k) :
    (t.set k v).get k2 = t.get k2 := by
  induction t with
  | nil => simp [Table.set, Table.get, Ne.symm h]
  | cons p rest ih =>
    obtain ⟨k3, v3⟩ := p
    by_cases h3 : k3 = k
    · subst h3
      simp [Table.set, Table.get, Ne.symm h]
    · by_cases h2 : k3 = k2
      · subst h2
        simp [Table.set, Table.get, h3]
      · simp [Table.set, Table.get, h3, h2, ih]

theorem get_mem {t : Table α} {k : String} {v : α} (h : t.get k = some v) : (k, v) ∈ t := by
  induction t with
  | nil => simp [Table.get] at h
  | cons p rest ih =>
    obtain ⟨k2, v2⟩ := p
    by_cases h2 : k2 = k
    · subst h2
      simp [Table.get] at h
      simp [h]
    · simp [Table.get, h2] at h
      exact List.mem_cons_of_mem _ (ih h)

theorem mem_set {t : Table α} {k : String} {v : α} {p : String × α}
    (h : p ∈ t.set k v) : p ∈ t ∨ p = (k, v) := by
  induction t with
  | nil => simp [Table.set] at h; simp [h]
  | cons q rest ih =>
    obtain ⟨k2, v2⟩ := q
    by_cases h2 : k2 = k
    · simp [Table.set, h2] at h
      rcases h with h | h
      · exact Or.inr h
      · exact Or.inl (List.mem_cons_of_mem _ h)
    · simp [Table.set, h2] at h
      rcases h with h | h
      · exact Or.inl (by simp [h])
      · rcases ih h with h3 | h3
        · exact Or.inl (List.mem_cons_of_mem _ h3)
        · exact Or.inr h3

theorem set_mem_self (t : Table α) (k : String) (v : α) : (k, v) ∈ t.set k v := by
  induction t with
  | nil => simp [Table.set]
  | cons q rest ih =>
    obtain ⟨k2, v2⟩ := q
    by_cases h2 : k2 = k <;> simp [Table.set, h2, ih]

theorem mem_del {t : Table α} {k : String} {p : String × α} (h : p ∈ t.del k) : p ∈ t :=
  List.mem_of_mem_filter h

theorem del_cons (k k2 : String) (v2 : α) (rest : Table α) :
    Table.del ((k2, v2) :: rest) k =
      if k2 = k then rest.del k else (k2, v2) :: rest.del k := by
  simp only [Table.del, List.filter_cons]
  by_cases h : k2 = k <;> simp [h]

theorem del_not_mem {t : Table α} {k : String} (h : k ∉ t.keys) : t.del k = t := by
  induction t with
  | nil => rfl
  | cons q rest ih =>
    obtain ⟨k2, v2⟩ := q
    have h1 : ¬ k2 = k := by
      intro e
      subst e
      exact h (by simp [Table.keys])
    have h2 : k ∉ Table.keys rest := by
      intro e
      apply h
      simp only [Table.keys, List.map_cons]
      exact List.mem_cons_of_mem _ e
    rw [del_cons]
    simp [h1, ih h2]

theorem del_idem (t : Table α) (k : String) : (t.del k).del k = t.del k := by
  simp [Table.del, List.filter_filter]

theorem get_del_ne (t : Table α) (k k2 : String) (h : k2 ≠ k) :
    (t.del k).get k2 = t.get k2 := by
  induction t with
  | nil => rfl
  | cons q rest ih =>
    obtain ⟨k3, v3⟩ := q
    rw [del_cons]
    by_cases h3 : k3 = k
    · subst h3
      simp [Table.get, Ne.symm h, ih]
    · by_cases h2 : k3 = k2 <;> simp [Table.get, h3, h2, h, ih]

end Table

/-! ## Allocator lemmas -/

/-- A string key never strictly equals a numeric draw, so the retry guard
of `generateId` is identically false. -/
theorem jsIncludes_str_num (l : List String) (n : Nat) :
    jsIncludes (l.map .str) (.num n) = false := by
  induction l with
  | nil => rfl
  | cons s rest ih => simp_all [jsIncludes, jsStrictEq]

/-- Consequently `generateId` always returns the stringified first draw,
whatever the existing keys are. -/
theorem generateId_eq (l : List String) (rng : List Nat) :
    generateId l rng = (toString (randNum rng).1, (randNum rng).2) := by
  cases rng with
  | nil => simp [generateId, randNum, generateIdLoop, jsIncludes_str_num]
  | cons r rest => simp [generateId, randNum, generateIdLoop, jsIncludes_str_num]

/-- A freshly inserted listing makes its title live. -/
theorem hasTitle_set (t : Table Listing) (k : String) (v : Listing) :
    hasTitle (t.set k v) v.title = true := by
  unfold hasTitle
  rw [List.any_eq_true]
  exact ⟨(k, v), Table.set_mem_self t k v, by simp⟩

/-! ## Claim theorems -/

/-- C1: REFUTED — the identifier allocator does not avoid the ids already
present.  `currentList` holds the string keys of the collection while the
draw `R` is a number, and `Array.prototype.includes` uses strict equality,
so the retry guard never fires: with existing ids `{"5"}` and draw `5`,
`generateId` returns `"5"`, a member of the set.  Consequently two listing
creations that draw the same number both resolve with the id `"5"` and the
second silently overwrites the first: the resulting ids are not pairwise
distinct and only one listing (titled `B`) survives. -/
theorem generateId_returns_existing_id :
    generateId ["5"] [5] = ("5", []) ∧ ("5" : String) ∈ ["5"] ∧
    addA.2.2 = Outcome.ok "5" ∧ addB.2.2 = Outcome.ok "5" ∧
    Table.keys addB.1.listings = ["5"] ∧
    (addB.1.listings.get "5").map Listing.title = some "B" :=
  ⟨by decide, by decide, by decide, by decide, by decide, by decide⟩

/-- C2 counterexample: title uniqueness is not an invariant of the
reachable states — `updateListing` renames listing `"1"` to the title of
listing `"2"` with no conflict check, so a reachable state holds two live
listings with the same title. -/
theorem dup_title_reachable :
    Reachable sysDupTitle ∧ ¬ dupTitleFree sysDupTitle.db :=
  ⟨⟨opsDupTitle, [1, 2], st0, rfl⟩, by decide⟩

/-- C2 (amended): `addListing` itself does enforce the title conflict
check — inserting a listing whose title equals a live listing's title
rejects with the conflict error, allocates no id (the random stream is
not consumed) and leaves the whole state unchanged.  `updateListing`
performs no such check (see the counterexample). -/
theorem addListing_dup_title_rejects (db : DB) (rng : List Nat) (title email : String)
    (a? : Option String) (p? : Option Int) (t? m? : Option String)
    (h : hasTitle db.listings title = true) :
    addListing db rng (some title) email a? p? t? m? =
      (db, rng, Outcome.err "A listing with this title already exists") := by
  simp [addListing, h]

/-- Witness for the amended C2 theorem at a concrete state. -/
theorem addListing_dup_title_rejects_witness :
    hasTitle dbW.listings "Loft" = true ∧
    addListing dbW [3] (some "Loft") "b@y.com" (some "2 Rd") (some 50) (some "u.png") (some "md2")
      = (dbW, [3], Outcome.err "A listing with this title already exists") :=
  ⟨by decide, addListing_dup_title_rejects dbW [3] "Loft" "b@y.com"
    (some "2 Rd") (some 50) (some "u.png") (some "md2") (by decide)⟩

/-- C10: `removeListing` and `removeBooking` always resolve: each just
deletes the key and resolves, an absent id leaves everything unchanged
(so removal is idempotent), `removeListing` never touches users or
bookings (dangling booking references included), and no listing other
than the named one is affected. -/
theorem remove_ops_contract (db : DB) (lid bid : String) :
    removeListing db lid = ({ db with listings := db.listings.del lid }, Outcome.ok ()) ∧
    removeBooking db bid = ({ db with bookings := db.bookings.del bid }, Outcome.ok ()) ∧
    (lid ∉ Table.keys db.listings → (removeListing db lid).1 = db) ∧
    (bid ∉ Table.keys db.bookings → (removeBooking db bid).1 = db) ∧
    (removeListing (removeListing db lid).1 lid).1 = (removeListing db lid).1 ∧
    (removeBooking (removeBooking db bid).1 bid).1 = (removeBooking db bid).1 ∧
    (removeListing db lid).1.users = db.users ∧
    (removeListing db lid).1.bookings = db.bookings ∧
    (∀ k, k ≠ lid → (removeListing db lid).1.listings.get k = db.listings.get k) := by
  refine ⟨rfl, rfl, ?_, ?_, ?_, ?_, rfl, rfl, ?_⟩
  · intro h
    simp [removeListing, Table.del_not_mem h]
  · intro h
    simp [removeBooking, Table.del_not_mem h]
  · simp [removeListing, Table.del_idem]
  · simp [removeBooking, Table.del_idem]
  · intro k hk
    simp [removeListing, Table.get_del_ne _ _ _ hk]

/-- Witness for C10 at a concrete state with an absent id. -/
theorem remove_ops_contract_witness :
    ("9" ∉ Table.keys dbW.listings) ∧ (removeListing dbW "9").1 = dbW ∧
    ("g" ≠ "1") ∧ (removeListing dbW "1").1.listings.get "g" = dbW.listings.get "g" := by
  have h := remove_ops_contract dbW "9" "9"
  have h2 := remove_ops_contract dbW "1" "1"
  exact ⟨by decide, h.2.2.1 (by decide), by decide, h2.2.2.2.2.2.2.2.2 "g" (by decide)⟩

/-- C3: a terminal booking is frozen for `acceptBooking` and
`declineBooking` — on a booking whose status is `accepted` or `declined`,
both calls reject (whoever the caller is) and leave the whole state
unchanged, and when the caller does own the booked listing the rejection
is precisely the terminal-state conflict for the current status. -/
theorem booking_terminal_frozen (db : DB) (owner bookingId : String) (bk : Booking)
    (hget : db.bookings.get bookingId = some bk)
    (hterm : bk.status = "accepted" ∨ bk.status = "declined") :
    (acceptBooking db owner bookingId).1 = db ∧
    (declineBooking db owner bookingId).1 = db ∧
    (∃ m, (acceptBooking db owner bookingId).2 = Outcome.err m) ∧
    (∃ m, (declineBooking db owner bookingId).2 = Outcome.err m) ∧
    (ownsBookingListing db owner bk = true →
      (acceptBooking db owner bookingId).2 =
        Outcome.err (if bk.status = "accepted" then "Booking has already been accepted"
          else "Booking has already been declined") ∧
      (declineBooking db owner bookingId).2 =
        Outcome.err (if bk.status = "declined" then "Booking has already been declined"
          else "Booking has already been accepted")) := by
  rcases hterm with hs | hs <;>
    cases how : ownsBookingListing db owner bk <;>
      simp [acceptBooking, declineBooking, hget, how, hs]

/-- Witness for C3 at a concrete accepted booking. -/
theorem booking_terminal_frozen_witness :
    dbB.bookings.get "9" = some bkAcc ∧ bkAcc.status = "accepted" ∧
    ownsBookingListing dbB "h@x.com" bkAcc = true ∧
    (acceptBooking dbB "h@x.com" "9").1 = dbB ∧
    (acceptBooking dbB "h@x.com" "9").2 = Outcome.err "Booking has already been accepted" ∧
    (declineBooking dbB "h@x.com" "9").2 = Outcome.err "Booking has already been accepted" := by
  have h := booking_terminal_frozen dbB "h@x.com" "9" bkAcc (by decide) (Or.inl rfl)
  have h5 := h.2.2.2.2 (by decide)
  refine ⟨by decide, rfl, by decide, h.1, ?_, ?_⟩
  · have := h5.1
    simpa using this
  · have := h5.2
    simpa using this

/-- C4: on a live unpublished listing, `publishListing` with a defined
availability resolves and sets availability to the input, the published
flag and a non-null `postedOn` (the current timestamp) together; on a
live published listing, `unpublishListing` resolves and clears all three;
publishing again without an intervening unpublish rejects. -/
theorem publish_unpublish_contract (db : DB) (lid : String) (l : Listing)
    (av av2 : List String) (now now2 : String)
    (hget : db.listings.get lid = some l) :
    (l.published = false →
      publishListing db lid (some av) now =
        ({ db with listings := db.listings.set lid { l with availability := av, published := true, postedOn := some now } }, Outcome.ok ()) ∧
      (publishListing db lid (some av) now).1.listings.get lid =
        some { l with availability := av, published := true, postedOn := some now } ∧
      publishListing (publishListing db lid (some av) now).1 lid (some av2) now2 =
        ((publishListing db lid (some av) now).1, Outcome.err "This listing is already published")) ∧
    (l.published = true →
      unpublishListing db lid =
        ({ db with listings := db.listings.set lid { l with availability := [], published := false, postedOn := none } }, Outcome.ok ()) ∧
      (unpublishListing db lid).1.listings.get lid =
        some { l with availability := [], published := false, postedOn := none }) := by
  constructor
  · intro hpub
    have h1 : publishListing db lid (some av) now =
        ({ db with listings := db.listings.set lid { l with availability := av, published := true, postedOn := some now } }, Outcome.ok ()) := by
      simp [publishListing, hget, hpub]
    refine ⟨h1, ?_, ?_⟩
    · rw [h1]
      exact Table.get_set_self _ _ _
    · rw [h1]
      simp [publishListing, Table.get_set_self]
  · intro hpub
    have h1 : unpublishListing db lid =
        ({ db with listings := db.listings.set lid { l with availability := [], published := false, postedOn := none } }, Outcome.ok ()) := by
      simp [unpublishListing, hget, hpub]
    refine ⟨h1, ?_⟩
    rw [h1]
    exact Table.get_set_self _ _ _

/-- Witness for C4: publish the concrete unpublished listing, then watch
the second publish reject; unpublish the concrete published listing. -/
theorem publish_unpublish_contract_witness :
    dbW.listings.get "1" = some lW ∧ lW.published = false ∧
    (publishListing dbW "1" (some ["d1"]) "T1").1.listings.get "1" =
      some { lW with availability := ["d1"], published := true, postedOn := some "T1" } ∧
    (publishListing (publishListing dbW "1" (some ["d1"]) "T1").1 "1" (some ["d2"]) "T2").2 =
      Outcome.err "This listing is already published" ∧
    dbB.listings.get "1" = some lPub ∧ lPub.published = true ∧
    (unpublishListing dbB "1").1.listings.get "1" =
      some { lPub with availability := [], published := false, postedOn := none } := by
  have h := publish_unpublish_contract dbW "1" lW ["d1"] ["d2"] "T1" "T2" (by decide)
  have hp := h.1 (by decide)
  have h2 := publish_unpublish_contract dbB "1" lPub [] [] "U1" "U2" (by decide)
  have hu := h2.2 (by decide)
  refine ⟨by decide, rfl, hp.2.1, ?_, by decide, rfl, hu.2⟩
  rw [hp.2.2]

/-- C6: when the primary (remote) backend is configured and its save
fails while the file write succeeds, `update` stores the full snapshot of
all three collections in the local file backend and resolves; the save
rejects exactly when neither the configured remote write nor the file
write succeeds; and a save, failed or not, never changes the in-memory
collections or the random stream. -/
theorem save_fallback_contract (u : Table User) (li : Table Listing) (bo : Table Booking)
    (st : Store) (rOk fOk : Bool) :
    (st.hasRedis = true → update u li bo st false true = ({ st with fileData := some ⟨u, li, bo⟩ }, true)) ∧
    ((update u li bo st rOk fOk).2 = false ↔ ¬ ((st.hasRedis = true ∧ rOk = true) ∨ fOk = true)) ∧
    (∀ s : Sys, ((Op.save rOk fOk).apply s).db = s.db ∧ ((Op.save rOk fOk).apply s).rng = s.rng) := by
  refine ⟨?_, ?_, ?_⟩
  · intro h
    simp [update, h]
  · cases hr : st.hasRedis <;> cases rOk <;> cases fOk <;> simp [update, hr]
  · intro s
    exact ⟨rfl, rfl⟩

/-- Witness for C6: a store with credentials whose remote write fails. -/
theorem save_fallback_contract_witness :
    stR.hasRedis = true ∧
    update dbB.users dbB.listings dbB.bookings stR false true =
      ({ stR with fileData := some ⟨dbB.users, dbB.listings, dbB.bookings⟩ }, true) :=
  ⟨rfl, (save_fallback_contract dbB.users dbB.listings dbB.bookings stR false true).1 rfl⟩

/-- C7: when at least one backend accepts the write, `reset` replaces all
three collections with empty ones, persists the empty snapshot (one of
the two backends holds it when `reset` returns) and resolves; a second
`reset` immediately after again resolves and leaves the collections
empty. -/
theorem reset_contract (db : DB) (st : Store) (rOk fOk : Bool)
    (h : (st.hasRedis = true ∧ rOk = true) ∨ fOk = true) :
    (reset db st rOk fOk).1 = emptyDB ∧
    (reset db st rOk fOk).2.2 = true ∧
    ((reset db st rOk fOk).2.1.redisData = some emptyDB ∨
      (reset db st rOk fOk).2.1.fileData = some emptyDB) ∧
    (reset (reset db st rOk fOk).1 (reset db st rOk fOk).2.1 rOk fOk).1 = emptyDB ∧
    (reset (reset db st rOk fOk).1 (reset db st rOk fOk).2.1 rOk fOk).2.2 = true := by
  rcases h with ⟨h1, h2⟩ | h1
  · subst h2
    simp [reset, update, h1, emptyDB]
  · subst h1
    cases hr : st.hasRedis <;> cases rOk <;> simp [reset, update, hr, emptyDB]

/-- Witness for C7 on the file-only store. -/
theorem reset_contract_witness :
    ((st0.hasRedis = true ∧ false = true) ∨ true = true) ∧
    (reset dbB st0 false true).1 = emptyDB ∧
    (reset (reset dbB st0 false true).1 (reset dbB st0 false true).2.1 false true).1 = emptyDB := by
  have h := reset_contract dbB st0 false true (Or.inr rfl)
  exact ⟨Or.inr rfl, h.1, h.2.2.2.1⟩

/-- C9: the enumeration views are projections.  `getAllListings` returns
per listing exactly `{id, title, owner, address, thumbnail, price,
reviews}` (the key parsed as an integer) and `getAllBookings` exactly
`{id, owner, dateRange, totalPrice, listingId, status}` — these are the
`ListingView` and `BookingView` record types.  Hence two states whose
listings agree keywise on precisely those projected fields (they may
differ in any listing's `metadata`, `availability`, `published`,
`postedOn`), whose bookings agree, and whose users are arbitrary (the
views never read `users`, so passwords in particular cannot leak) give
identical enumeration results. -/
theorem enumeration_is_projection (db db2 : DB)
    (hl : List.Forall₂ (fun p q => p.1 = q.1 ∧ listingVisEq p.2 q.2) db.listings db2.listings)
    (hb : db.bookings = db2.bookings) :
    getAllListings db = getAllListings db2 ∧ getAllBookings db = getAllBookings db2 := by
  constructor
  · have gen : ∀ (L1 L2 : Table Listing),
        List.Forall₂ (fun p q => p.1 = q.1 ∧ listingVisEq p.2 q.2) L1 L2 →
        L1.map (fun p => ({ id := jsParseIntDec p.1, title := p.2.title, owner := p.2.owner, address := p.2.address, thumbnail := p.2.thumbnail, price := p.2.price, reviews := p.2.reviews } : ListingView)) = L2.map (fun p => ({ id := jsParseIntDec p.1, title := p.2.title, owner := p.2.owner, address := p.2.address, thumbnail := p.2.thumbnail, price := p.2.price, reviews := p.2.reviews } : ListingView)) := by
      intro L1 L2 h
      induction h with
      | nil => rfl
      | cons h t ih =>
        rcases h with ⟨hk, ht, ho, ha, hth, hp, hr⟩
        simp [hk, ht, ho, ha, hth, hp, hr, ih]
    exact gen db.listings db2.listings hl
  · simp [getAllBookings, hb]

/-- Witness for C9: two concrete states differing only in a listing's
metadata, availability, published flag and `postedOn`, a user's password
and session flag — and not equal as states — enumerate identically. -/
theorem enumeration_is_projection_witness :
    List.Forall₂ (fun p q => p.1 = q.1 ∧ listingVisEq p.2 q.2) dbV1.listings dbV2.listings ∧
    dbV1.bookings = dbV2.bookings ∧ dbV1 ≠ dbV2 ∧
    getAllListings dbV1 = getAllListings dbV2 ∧ getAllBookings dbV1 = getAllBookings dbV2 := by
  have hl : List.Forall₂ (fun p q => p.1 = q.1 ∧ listingVisEq p.2 q.2) dbV1.listings dbV2.listings :=
    List.Forall₂.cons ⟨rfl, rfl, rfl, rfl, rfl, rfl, rfl⟩ List.Forall₂.nil
  have h := enumeration_is_projection dbV1 dbV2 hl rfl
  exact ⟨hl, rfl, by decide, h.1, h.2⟩

/-- C8 counterexample: the claim as stated fails on its fresh-id
conjunct.  Against a state holding a listing keyed `"5"` (titled `Y`, so
there is no title conflict) with random draw 5, of the two concurrently
submitted creations of a listing titled `X` exactly one resolves and the
other rejects with the duplicate-title conflict — but the resolving one
resolves with id `"5"`, already a member of the key set, not a fresh id:
the C1 allocator bug makes it silently overwrite the listing `Y`. -/
theorem serialized_fresh_id_cex :
    hasTitle db8.listings "X" = false ∧
    add8A.2.2 = Outcome.ok "5" ∧ ("5" : String) ∈ Table.keys db8.listings ∧
    add8B.2.2 = Outcome.err "A listing with this title already exists" ∧
    (add8A.1.listings.get "5").map Listing.title = some "X" ∧
    Table.keys add8A.1.listings = ["5"] :=
  ⟨by decide, by decide, by decide, by decide, by decide, by decide⟩

/-- C8 (amended): the duplicate-title race under the serializer.  The
async-lock dependency is not part of this repository: following the
spec, a batch of concurrently submitted operations runs as the
sequential composition of their atomic critical sections in FIFO
submission order (`runOps`), with at most one critical section in
flight.  For two listing creations with the same title `X` submitted
against a state with no live `X`, the first to run resolves and the
second rejects with the duplicate-title conflict, changing nothing,
regardless of submission order (the quantification over both argument
lists covers both orders); the resolved id is fresh provided the random
draw avoids the existing keys — unconditionally fresh it is not, by the
C1 allocator bug (see the counterexample). -/
theorem serialized_duplicate_title (s : Sys) (eA eB aA aB tA tB mA mB : String) (pA pB : Int)
    (hX : hasTitle s.db.listings "X" = false)
    (hfresh : (generateId (Table.keys s.db.listings) s.rng).1 ∉ Table.keys s.db.listings) :
    (∃ id, (addListing s.db s.rng (some "X") eA (some aA) (some pA) (some tA) (some mA)).2.2 =
        Outcome.ok id ∧ id ∉ Table.keys s.db.listings) ∧
    (addListing (addListing s.db s.rng (some "X") eA (some aA) (some pA) (some tA) (some mA)).1
        (addListing s.db s.rng (some "X") eA (some aA) (some pA) (some tA) (some mA)).2.1
        (some "X") eB (some aB) (some pB) (some tB) (some mB) =
      ((addListing s.db s.rng (some "X") eA (some aA) (some pA) (some tA) (some mA)).1,
       (addListing s.db s.rng (some "X") eA (some aA) (some pA) (some tA) (some mA)).2.1,
       Outcome.err "A listing with this title already exists")) ∧
    (runOps [Op.addListing (some "X") eA (some aA) (some pA) (some tA) (some mA),
             Op.addListing (some "X") eB (some aB) (some pB) (some tB) (some mB)] s =
      { db := (addListing s.db s.rng (some "X") eA (some aA) (some pA) (some tA) (some mA)).1,
        rng := (addListing s.db s.rng (some "X") eA (some aA) (some pA) (some tA) (some mA)).2.1,
        store := s.store }) := by
  have hA : addListing s.db s.rng (some "X") eA (some aA) (some pA) (some tA) (some mA) = ({ s.db with listings := s.db.listings.set (generateId (Table.keys s.db.listings) s.rng).1 (newListingPayload "X" eA aA pA tA mA) }, (generateId (Table.keys s.db.listings) s.rng).2, Outcome.ok (generateId (Table.keys s.db.listings) s.rng).1) := by
    simp [addListing, hX]
  have hT : hasTitle (s.db.listings.set (generateId (Table.keys s.db.listings) s.rng).1 (newListingPayload "X" eA aA pA tA mA)) "X" = true :=
    hasTitle_set s.db.listings _ (newListingPayload "X" eA aA pA tA mA)
  have hB : addListing (addListing s.db s.rng (some "X") eA (some aA) (some pA) (some tA) (some mA)).1
      (addListing s.db s.rng (some "X") eA (some aA) (some pA) (some tA) (some mA)).2.1
      (some "X") eB (some aB) (some pB) (some tB) (some mB) =
      ((addListing s.db s.rng (some "X") eA (some aA) (some pA) (some tA) (some mA)).1,
       (addListing s.db s.rng (some "X") eA (some aA) (some pA) (some tA) (some mA)).2.1,
       Outcome.err "A listing with this title already exists") := by
    rw [hA]
    simp [addListing, hT]
  refine ⟨⟨(generateId (Table.keys s.db.listings) s.rng).1, ?_, hfresh⟩, hB, ?_⟩
  · rw [hA]
  · simp only [runOps, List.foldl, Op.apply]
    rw [hB]

/-- Witness for C8 on a fresh service drawing 7. -/
theorem serialized_duplicate_title_witness :
    hasTitle emptyDB.listings "X" = false ∧
    ((generateId (Table.keys emptyDB.listings) [7]).1 ∉ Table.keys emptyDB.listings) ∧
    (addListing (addListing emptyDB [7] (some "X") "a@x.com" (some "1 Rd") (some 100) (some "t.png") (some "md")).1 (addListing emptyDB [7] (some "X") "a@x.com" (some "1 Rd") (some 100) (some "t.png") (some "md")).2.1 (some "X") "b@y.com" (some "2 Rd") (some 200) (some "u.png") (some "md")).2.2 = Outcome.err "A listing with this title already exists" := by
  have h := serialized_duplicate_title (initSys [7] st0) "a@x.com" "b@y.com" "1 Rd" "2 Rd"
    "t.png" "u.png" "md" "md" 100 200 (by decide) (by decide)
  have h3 := congrArg (fun r => r.2.2) h.2.1
  exact ⟨by decide, by decide, h3⟩

/-- Every entry of an overwritten table satisfies a per-record property
when the old entries and the new record do. -/
theorem pubGroupWeak_set {t : Table Listing} {k : String} {v : Listing}
    (ht : ∀ p ∈ t, pubGroupWeak p.2) (hv : pubGroupWeak v) :
    ∀ p ∈ t.set k v, pubGroupWeak p.2 := by
  intro p hp
  rcases Table.mem_set hp with hm | hm
  · exact ht p hm
  · subst hm
    exact hv

/-- Deletion can only shrink the set of entries. -/
theorem pubGroupWeak_del {t : Table Listing} {k : String}
    (ht : ∀ p ∈ t, pubGroupWeak p.2) : ∀ p ∈ t.del k, pubGroupWeak p.2 :=
  fun p hp => ht p (Table.mem_del hp)

/-- One step of any exported operation preserves the publish-group
invariant that the code maintains. -/
theorem pubGroup_step (op : Op) (s : Sys) (h : pubGroupWeakAll s.db) :
    pubGroupWeakAll (op.apply s).db := by
  cases op with
  | register e p n =>
    simp only [Op.apply, AirBrB.register.eq_def]
    repeat' split
    all_goals exact h
  | login e p =>
    simp only [Op.apply, AirBrB.login.eq_def]
    repeat' split
    all_goals exact h
  | logout e =>
    simp only [Op.apply, AirBrB.logout.eq_def]
    repeat' split
    all_goals exact h
  | addListing t e a pr th m =>
    simp only [Op.apply, AirBrB.addListing.eq_def]
    repeat' split
    all_goals try exact h
    exact pubGroupWeak_set h (by simp [newListingPayload, pubGroupWeak])
  | updateListing lid t a th pr m =>
    simp only [Op.apply, AirBrB.updateListing.eq_def]
    cases hget : s.db.listings.get lid with
    | none =>
      simp only []
      repeat' split
      all_goals exact h
    | some l0 =>
      simp only []
      have h0 : pubGroupWeak l0 := h _ (Table.get_mem hget)
      refine pubGroupWeak_set h ?_
      rcases a with _ | av <;> rcases t with _ | tv <;> rcases th with _ | thv <;>
        rcases pr with _ | prv <;> rcases m with _ | mv <;>
        simp only [pubGroupWeak] at h0 ⊢ <;> (try split_ifs) <;> exact h0
  | removeListing lid =>
    simp only [Op.apply, AirBrB.removeListing.eq_def]
    exact pubGroupWeak_del h
  | publishListing lid av now =>
    simp only [Op.apply, AirBrB.publishListing.eq_def]
    cases av with
    | none => exact h
    | some avl =>
      cases hget : s.db.listings.get lid with
      | none => exact h
      | some l0 =>
        simp only []
        split_ifs with hp
        · exact h
        · exact pubGroupWeak_set h (by simp [pubGroupWeak])
  | unpublishListing lid =>
    simp only [Op.apply, AirBrB.unpublishListing.eq_def]
    cases hget : s.db.listings.get lid with
    | none => exact h
    | some l0 =>
      simp only []
      split_ifs with hp
      · exact h
      · exact pubGroupWeak_set h (by simp [pubGroupWeak])
  | leaveListingReview e lid bid rv =>
    simp only [Op.apply, AirBrB.leaveListingReview.eq_def]
    cases s.db.bookings.get bid with
    | none => exact h
    | some bk =>
      cases hget : s.db.listings.get lid with
      | none => exact h
      | some l0 =>
        simp only []
        have h0 : pubGroupWeak l0 := h _ (Table.get_mem hget)
        repeat' split
        all_goals try exact h
        refine pubGroupWeak_set h ?_
        simpa [pubGroupWeak] using h0
  | makeNewBooking o dr tp lid =>
    simp only [Op.apply, AirBrB.makeNewBooking.eq_def]
    repeat' split
    all_goals exact h
  | removeBooking bid =>
    simp only [Op.apply, AirBrB.removeBooking.eq_def]
    exact h
  | acceptBooking o bid =>
    simp only [Op.apply, AirBrB.acceptBooking.eq_def]
    repeat' split
    all_goals exact h
  | declineBooking o bid =>
    simp only [Op.apply, AirBrB.declineBooking.eq_def]
    repeat' split
    all_goals exact h
  | save rOk fOk =>
    exact h
  | reset rOk fOk =>
    simp only [Op.apply, AirBrB.reset.eq_def]
    repeat' split
    all_goals try exact h
    intro p hp
    simp [emptyDB] at hp

/-- The publish-group invariant holds along any run. -/
theorem pubGroup_run (ops : List Op) (s : Sys) (h : pubGroupWeakAll s.db) :
    pubGroupWeakAll (runOps ops s).db := by
  induction ops generalizing s with
  | nil => exact h
  | cons op rest ih => exact ih _ (pubGroup_step op s h)

/-- C5 counterexample: the publish group is not as tight as claimed —
`publishListing` accepts a defined but empty availability list, so a
reachable state holds a listing with `published = true`, a non-null
`postedOn`, and an empty availability, violating the stated
published-iff-non-empty-availability equivalence. -/
theorem pub_group_cex :
    Reachable sysEmptyAvail ∧ ¬ pubGroupConsistent sysEmptyAvail.db :=
  ⟨⟨opsEmptyAvail, [1], st0, rfl⟩, by decide⟩

/-- C5 (amended): in every reachable state the group holds in the weaker
form the code actually maintains — `published = true` exactly when
`postedOn` is non-null, and a non-empty availability only on a published
listing; a published listing may have an empty availability (see the
counterexample). -/
theorem reachable_pub_group (s : Sys) (h : Reachable s) : pubGroupWeakAll s.db := by
  obtain ⟨ops, rng, st, rfl⟩ := h
  refine pubGroup_run ops (initSys rng st) ?_
  intro p hp
  simp [initSys, emptyDB] at hp

/-- Witness for C5 at a concrete reachable state containing a published
listing. -/
theorem reachable_pub_group_witness :
    Reachable sysEmptyAvail ∧ pubGroupWeakAll sysEmptyAvail.db :=
  ⟨⟨opsEmptyAvail, [1], st0, rfl⟩,
   reachable_pub_group sysEmptyAvail ⟨opsEmptyAvail, [1], st0, rfl⟩⟩

end AirBrB
